import Mathlib

/-!
Verification of the suggestion lifecycle controller of the
obsidian-smart-compose plugin (src/main.ts), shallowly embedded in Lean.

Documents are modelled as `String`s with character offsets (CodeMirror's
`Text` positions), line numbers are 1-based as in CodeMirror, and the
dynamic JSON response value is modelled as `Option String` (the `response`
field when it is present and a string, `none` otherwise). String
processing is carried out on the character lists underlying the strings,
with structural recursion, so that every definition evaluates by kernel
reduction on concrete inputs.
-/

namespace SmartCompose

/-- Plugin settings (interface `AutocompleteSettings` in src/main.ts). -/
structure AutocompleteSettings where
  ollamaUrl : String
  model : String
  contextChars : Nat
  debounceMs : Nat
  maxTokens : Nat
  disableInCodeBlocks : Bool
  debugLogging : Bool
deriving DecidableEq, Repr

/-- `DEFAULT_SETTINGS` from src/main.ts. -/
def DEFAULT_SETTINGS : AutocompleteSettings :=
  { ollamaUrl := "http://localhost:11434"
    model := "qwen3:0.6b"
    contextChars := 400
    debounceMs := 250
    maxTokens := 16
    disableInCodeBlocks := true
    debugLogging := false }

/-- `clamp(value, min, max)` from src/main.ts: `Math.max(min, Math.min(max, value))`. -/
def clamp (value min max : Nat) : Nat :=
  Nat.max min (Nat.min max value)

/-- `isWordChar(ch)` from src/main.ts: ASCII digit, letter, or underscore
(character codes 48-57, 65-90, 97-122, 95). -/
def isWordChar (c : Char) : Bool :=
  (48 ≤ c.toNat && c.toNat ≤ 57) ||
  (65 ≤ c.toNat && c.toNat ≤ 90) ||
  (97 ≤ c.toNat && c.toNat ≤ 122) ||
  c.toNat == 95

/-- `isWhitespace(ch)` from src/main.ts: space, tab, newline or carriage return. -/
def isWhitespaceCh (c : Char) : Bool :=
  c == ' ' || c == '\t' || c == '\n' || c == '\r'

/-- `isPunctuationTrigger(ch)` from src/main.ts: period or comma. -/
def isPunctuationTrigger (c : Char) : Bool :=
  c == '.' || c == ','

/-- The character of `doc` at offset `i`, if any; models JavaScript
`doc.sliceString(i, i + 1)` where the empty string plays `none`. -/
def charAt? (doc : String) (i : Nat) : Option Char :=
  doc.toList.get? i

/-- Lift a character predicate to `Option Char`; the empty slice (our `none`)
satisfies no predicate, matching `isWordChar("") === false` etc. in the source. -/
def chOpt (o : Option Char) (p : Char → Bool) : Bool :=
  match o with
  | none => false
  | some c => p c

/-- `doc.sliceString(a, b)`: the substring of `doc` from offset `a`
(inclusive) to `b` (exclusive). -/
def sliceString (doc : String) (a b : Nat) : String :=
  String.mk ((doc.toList.drop a).take (b - a))

/-- Drop the whitespace at both ends of a character list. -/
def trimChars (l : List Char) : List Char :=
  ((l.dropWhile isWhitespaceCh).reverse.dropWhile isWhitespaceCh).reverse

/-- JavaScript `String.prototype.trim` as used by the source on document
lines (the whitespace that matters there is space/tab/newline/CR). -/
def jsTrim (s : String) : String :=
  String.mk (trimChars s.toList)

/-- Split a character list at newline characters. -/
def splitLines : List Char → List (List Char)
  | [] => [[]]
  | c :: cs =>
    if c = '\n' then [] :: splitLines cs
    else
      match splitLines cs with
      | [] => [[c]]
      | l :: ls => (c :: l) :: ls

/-- The list of lines of a document, as CodeMirror's `Text` exposes them
(1-based `doc.line(n)` indexes into this list at `n - 1`). -/
def docLines (doc : String) : List String :=
  (splitLines doc.toList).map String.mk

/-- `doc.lineAt(pos).number`: the 1-based number of the line holding
offset `pos` (one plus the newlines at offsets strictly before `pos`). -/
def lineNumberAt (doc : String) (pos : Nat) : Nat :=
  1 + ((doc.toList.take pos).count '\n')

/-- The text of the line holding offset `pos` that lies strictly before
`pos` (used by the inline-code scan). -/
def lineTextBefore (doc : String) (pos : Nat) : List Char :=
  ((doc.toList.take pos).reverse.takeWhile (fun c => c ≠ '\n')).reverse

/-- The 1-based number of the first line from line 2 onward whose trimmed
text is `---`, if any: the closing front-matter delimiter sought by
`isInFrontmatter` in src/main.ts. -/
def findCloseLine (ls : List String) : Option Nat :=
  match (ls.drop 1).findIdx? (fun l => jsTrim l == "---") with
  | some i => some (i + 2)
  | none => none

/-- `isInFrontmatter(doc, pos)` from src/main.ts: requires at least two
lines and a first line trimming to `---`; then a position is inside when
its line number is at most the closing delimiter's line number, and when
no closing delimiter exists every position is inside. -/
def isInFrontmatter (doc : String) (pos : Nat) : Bool :=
  let ls := docLines doc
  if ls.length < 2 then false
  else
    match ls with
    | [] => false
    | firstLine :: _ =>
      if jsTrim firstLine ≠ "---" then false
      else
        match findCloseLine ls with
        | some lineNo => lineNumberAt doc pos ≤ lineNo
        | none => true

/-- `isInFencedCodeBlock(doc, pos)` from src/main.ts: walk the lines from
line 1 through the cursor's line, toggling on every line whose trimmed
text starts with three backticks or three tildes. -/
def isInFencedCodeBlock (doc : String) (pos : Nat) : Bool :=
  let ls := docLines doc
  ((ls.take (lineNumberAt doc pos)).foldl
    (fun inFence l =>
      if ("```".toList.isPrefixOf (jsTrim l).toList) ||
         ("~~~".toList.isPrefixOf (jsTrim l).toList) then !inFence else inFence)
    false)

/-- `isInInlineCode(doc, pos)` from src/main.ts: count backticks on the
cursor's line strictly before the offset; odd means inside. -/
def isInInlineCode (doc : String) (pos : Nat) : Bool :=
  ((lineTextBefore doc pos).count (Char.ofNat 96)) % 2 == 1

/-- `isCursorEligible()` from src/main.ts, with the view state made
explicit: the document text, the cursor head `pos`, and whether the main
selection is empty. The early returns of the source become an if-chain. -/
def isCursorEligible (settings : AutocompleteSettings) (doc : String)
    (pos : Nat) (selEmpty : Bool) : Bool :=
  if !selEmpty then false
  else if pos = 0 then false
  else
    let prevChar := charAt? doc (pos - 1)
    let prevOk :=
      if prevChar = some ' ' then
        if pos < 2 then false
        else !(chOpt (charAt? doc (pos - 2)) isWhitespaceCh)
      else chOpt prevChar isWordChar || chOpt prevChar isPunctuationTrigger
    if !prevOk then false
    else if chOpt (charAt? doc pos) isWordChar then false
    else if isInFrontmatter doc pos then false
    else if settings.disableInCodeBlocks &&
        (isInFencedCodeBlock doc pos || isInInlineCode doc pos) then false
    else true

/-- `getPrefix()` from src/main.ts: the window of up to
`clamp(contextChars, 100, 800)` characters ending at the cursor; `none`
when it is shorter than 10 characters or whitespace-only. -/
def getPrefixWindow (settings : AutocompleteSettings) (doc : String) (pos : Nat) :
    Option String :=
  let contextChars := clamp settings.contextChars 100 800
  let pfx := sliceString doc (pos - contextChars) pos
  if pfx.length < 10 then none
  else if (jsTrim pfx).length = 0 then none
  else some pfx

/-- Decoding options of the Ollama request (`options` object built in
`sendRequest`); the fractional parameters are exact rationals. -/
structure OllamaOptions where
  temperature : ℚ
  top_p : ℚ
  top_k : Nat
  repeat_penalty : ℚ
  num_predict : Nat
  stop : List String
deriving DecidableEq, Repr

/-- The JSON body built in `sendRequest` in src/main.ts. -/
structure OllamaRequestBody where
  model : String
  prompt : String
  raw : Bool
  stream : Bool
  options : OllamaOptions
deriving DecidableEq, Repr

/-- The `body` object of `sendRequest` in src/main.ts, as a function of
the settings and the prefix string passed in. -/
def mkRequestBody (settings : AutocompleteSettings) (pfx : String) :
    OllamaRequestBody :=
  { model := settings.model
    prompt := pfx
    raw := true
    stream := false
    options :=
      { temperature := 2/10
        top_p := 9/10
        top_k := 40
        repeat_penalty := 105/100
        num_predict := clamp settings.maxTokens 8 32
        stop := ["\n"] } }

/-- The post-await response handling of `sendRequest` (src/main.ts lines
439-452): the parsed body's `response` field is `some r` when present and
a string, `none` otherwise; an absent, non-string or empty string field
yields no suggestion, anything else is surfaced whole. -/
def responseSuggestion (data : Option String) : Option String :=
  match data with
  | none => none
  | some r => if r.length = 0 then none else some r

/-- A CodeMirror state effect as far as the suggestion field is
concerned: either `setSuggestionEffect.of(v)` or some unrelated effect. -/
inductive TrEffect where
  | setSuggestion : Option String → TrEffect
  | other : TrEffect
deriving DecidableEq, Repr

/-- The parts of a CodeMirror transaction that `suggestionField.update`
reads: the effects, `tr.docChanged`, and whether `tr.selection` is set. -/
structure Transaction where
  effects : List TrEffect
  docChanged : Bool
  selectionSet : Bool
deriving DecidableEq, Repr

/-- The first `setSuggestionEffect` payload among the effects, if any
(the source's `for` loop returns on the first match). -/
def findSetSuggestion : List TrEffect → Option (Option String)
  | [] => none
  | TrEffect.setSuggestion v :: _ => some v
  | TrEffect.other :: es => findSetSuggestion es

/-- `suggestionField.update(value, tr)` from src/main.ts: the first
set-suggestion effect wins; otherwise a document change or a transaction
carrying a selection resets the field to `null`; otherwise keep the value. -/
def suggestionFieldUpdate (value : Option String) (tr : Transaction) :
    Option String :=
  match findSetSuggestion tr.effects with
  | some v => v
  | none => if tr.docChanged || tr.selectionSet then none else value

/-- The editor state visible to the controller: the document, the cursor
head, whether the main selection is empty, and the suggestion field. -/
structure EditorState where
  doc : String
  cursor : Nat
  selEmpty : Bool
  suggestion : Option String
deriving DecidableEq, Repr

/-- Insert `s` into `doc` at offset `pos`
(`changes: {from: pos, to: pos, insert: s}`). -/
def stringInsert (doc : String) (pos : Nat) (s : String) : String :=
  String.mk (doc.toList.take pos ++ s.toList ++ doc.toList.drop pos)

/-- A `view.dispatch` argument as used in src/main.ts: an optional
insertion, an optional new selection anchor, and effects. -/
structure DispatchSpec where
  insertAt : Option (Nat × String)
  selectionAnchor : Option Nat
  effects : List TrEffect
deriving DecidableEq, Repr

/-- Apply a dispatch to the editor state: perform the insertion, move the
cursor, and run `suggestionField.update` on the induced transaction
(docChanged iff there was an insertion, selection set iff an anchor was
given, which also collapses the selection). -/
def applyDispatch (st : EditorState) (d : DispatchSpec) : EditorState :=
  let doc' := match d.insertAt with
    | some (p, s) => stringInsert st.doc p s
    | none => st.doc
  let cursor' := match d.selectionAnchor with
    | some a => a
    | none => st.cursor
  let selEmpty' := match d.selectionAnchor with
    | some _ => true
    | none => st.selEmpty
  let tr : Transaction :=
    { effects := d.effects
      docChanged := d.insertAt.isSome
      selectionSet := d.selectionAnchor.isSome }
  { doc := doc'
    cursor := cursor'
    selEmpty := selEmpty'
    suggestion := suggestionFieldUpdate st.suggestion tr }

/-- `acceptSuggestion(view)` from src/main.ts (the identical dispatch is
also issued by the two keydown capture listeners): with a visible
suggestion, insert it at the cursor head, put the selection anchor at
`pos + suggestion.length`, and set the suggestion effect to `null`. -/
def acceptSuggestion (st : EditorState) : EditorState :=
  match st.suggestion with
  | none => st
  | some sugg =>
    applyDispatch st
      { insertAt := some (st.cursor, sugg)
        selectionAnchor := some (st.cursor + sugg.length)
        effects := [TrEffect.setSuggestion none] }

/-- `clearSuggestion(view)` from src/main.ts: with a visible suggestion,
dispatch only the `null` suggestion effect; otherwise do nothing. -/
def clearSuggestionCmd (st : EditorState) : EditorState :=
  match st.suggestion with
  | none => st
  | some _ =>
    applyDispatch st
      { insertAt := none
        selectionAnchor := none
        effects := [TrEffect.setSuggestion none] }

/-- The one normalization `showSuggestion(text)` applies (src/main.ts lines
470-475): when the character before the cursor is a space and the text
starts with a space, drop one leading space; otherwise keep the text. -/
def normalizeSuggestion (prevChar : Option Char) (text : String) : String :=
  if prevChar = some ' ' && [' '].isPrefixOf text.toList then
    String.mk (text.toList.drop 1)
  else text

/-- `showSuggestion(text)` from src/main.ts: bail on empty text, strip one
leading space when the character before the cursor is a space and the text
starts with a space, bail if that left nothing, else dispatch the effect. -/
def showSuggestion (st : EditorState) (text : String) : EditorState :=
  if text = "" then st
  else
    let sugg := normalizeSuggestion
      (if 0 < st.cursor then charAt? st.doc (st.cursor - 1) else none) text
    if sugg = "" then st
    else applyDispatch st
      { insertAt := none
        selectionAnchor := none
        effects := [TrEffect.setSuggestion (some sugg)] }

/-- The request bookkeeping of the view plugin: `requestId` and whether a
request is in flight (`requestAbort !== null`), plus the suggestion last
applied by a response, standing for the editor's suggestion field. -/
structure CtrlState where
  requestId : Nat
  inflight : Bool
  suggestion : Option String
deriving DecidableEq, Repr

/-- Initial controller state (constructor of the view plugin class). -/
def ctrlInit : CtrlState :=
  { requestId := 0, inflight := false, suggestion := none }

/-- The request lifecycle events of one editor instance: `sendRequest`
entry (`++this.requestId`, a new AbortController), `cancelRequest()`, and
a response arriving tagged with the generation it was issued under. -/
inductive ReqEvent where
  | start : ReqEvent
  | cancel : ReqEvent
  | response : Nat → Option String → ReqEvent
deriving DecidableEq, Repr

/-- One step of the request lifecycle, from src/main.ts: `sendRequest`
increments `requestId` and installs the abort controller; `cancelRequest`
aborts any in-flight request and resets `requestId` to 0; a response
tagged `g` is discarded unless `g` equals the current `requestId`, and an
accepted well-formed non-empty body is applied as the suggestion. -/
def reqStep (st : CtrlState) : ReqEvent → CtrlState
  | ReqEvent.start => { st with requestId := st.requestId + 1, inflight := true }
  | ReqEvent.cancel => { st with requestId := 0, inflight := false }
  | ReqEvent.response g data =>
    if g = st.requestId then
      match responseSuggestion data with
      | some r => { st with suggestion := some r, inflight := false }
      | none => { st with inflight := false }
    else st

/-- Run the request lifecycle from the initial state over a trace. -/
def reqRun (evs : List ReqEvent) : CtrlState :=
  evs.foldl reqStep ctrlInit

/-- The state read by `maybeRequest()`: settings, focus, the request
bookkeeping, and the editor state. -/
structure PluginState where
  settings : AutocompleteSettings
  hasFocus : Bool
  ctrl : CtrlState
  editor : EditorState
deriving DecidableEq, Repr

/-- `maybeRequest()` from src/main.ts: silently return (no state change)
unless the editor has focus, no request is in flight, the cursor is
eligible and a prefix exists; otherwise start the request (handing the
prefix to `sendRequest`, which bumps the generation and installs the
abort controller). Returns the prompt sent, if any. -/
def maybeRequest (st : PluginState) : PluginState × Option String :=
  if !st.hasFocus then (st, none)
  else if st.ctrl.inflight then (st, none)
  else if !(isCursorEligible st.settings st.editor.doc st.editor.cursor
      st.editor.selEmpty) then (st, none)
  else
    match getPrefixWindow st.settings st.editor.doc st.editor.cursor with
    | none => (st, none)
    | some pfx => ({ st with ctrl := reqStep st.ctrl ReqEvent.start }, some pfx)

/-- The transactions that can reach the suggestion field in a running
editor: a delivered response (`showSuggestion`), accept, dismiss, a user
edit (document change with no suggestion effect), and a bare selection
move. -/
inductive EditorEvent where
  | deliver : String → EditorEvent
  | accept : EditorEvent
  | dismiss : EditorEvent
  | edit : Nat → String → EditorEvent
  | move : Nat → EditorEvent
deriving DecidableEq, Repr

/-- One editor transition per event, each a dispatch from src/main.ts. -/
def editorStep (st : EditorState) : EditorEvent → EditorState
  | EditorEvent.deliver t => showSuggestion st t
  | EditorEvent.accept => acceptSuggestion st
  | EditorEvent.dismiss => clearSuggestionCmd st
  | EditorEvent.edit p s =>
    applyDispatch st { insertAt := some (p, s), selectionAnchor := none, effects := [] }
  | EditorEvent.move a =>
    applyDispatch st { insertAt := none, selectionAnchor := some a, effects := [] }

/-- The editor state a fresh view starts from (`suggestionField.create`
returns `null`). -/
def initialEditorState (doc : String) : EditorState :=
  { doc := doc, cursor := 0, selEmpty := true, suggestion := none }

/-- Run an editor from a fresh view over an event trace. -/
def runEditor (doc : String) (evs : List EditorEvent) : EditorState :=
  evs.foldl editorStep (initialEditorState doc)

/-- Invariant: the suggestion field never holds the empty string. -/
def suggestionOk (st : EditorState) : Prop :=
  ∀ s, st.suggestion = some s → s ≠ ""

/-- Claim C1, counterexample: the request generation counter is not
monotonically increasing over the lifetime of an editor instance — after
a request start, a cancellation resets `requestId` from 1 back to 0. -/
theorem requestId_not_monotonic :
    (reqRun [ReqEvent.start, ReqEvent.cancel]).requestId <
      (reqRun [ReqEvent.start]).requestId := by
  decide

/-- Claim C1 (amended): the generation counter is incremented on every
request start but reset to 0 by `cancelRequest`, hence not monotonic; a
response tagged with generation `g` mutates the suggestion only if `g`
equals the generation current at the moment of application, and a matching
well-formed non-empty response is applied. -/
theorem generation_gating (st : CtrlState) (g : Nat) (data : Option String) :
    ((reqStep st (ReqEvent.response g data)).suggestion ≠ st.suggestion →
      g = st.requestId)
    ∧ (∀ r, g = st.requestId → responseSuggestion data = some r →
        (reqStep st (ReqEvent.response g data)).suggestion = some r)
    ∧ ((reqStep st ReqEvent.start).requestId = st.requestId + 1)
    ∧ ((reqStep st ReqEvent.cancel).requestId = 0) := by
  refine ⟨?_, ?_, rfl, rfl⟩
  · intro h
    by_contra hne
    apply h
    simp [reqStep, if_neg hne]
  · intro r hg hr
    subst hg
    simp [reqStep, hr]

/-- Witness for the C1 theorem at a concrete controller state. -/
theorem generation_gating_witness :
    (reqStep ⟨1, true, none⟩ (ReqEvent.response 1 (some "fox"))).suggestion = some "fox" :=
  (generation_gating ⟨1, true, none⟩ 1 (some "fox")).2.1 "fox" rfl (by decide)

/-- Claim C2: for every transaction that changes the document or carries a
selection and has no set-suggestion effect, `suggestionField.update`
returns `none` in that same transaction. -/
theorem doc_or_selection_clears_suggestion (value : Option String) (tr : Transaction)
    (hno : findSetSuggestion tr.effects = none)
    (hch : tr.docChanged = true ∨ tr.selectionSet = true) :
    suggestionFieldUpdate value tr = none := by
  unfold suggestionFieldUpdate
  rw [hno]
  rcases hch with h | h <;> simp [h]

/-- Witness for the C2 theorem on a concrete transaction. -/
theorem doc_or_selection_clears_suggestion_witness :
    suggestionFieldUpdate (some "stale")
      { effects := [TrEffect.other], docChanged := true, selectionSet := false } = none :=
  doc_or_selection_clears_suggestion (some "stale") _ (by decide) (Or.inl rfl)

/-- Claim C3: with a visible suggestion `s` at cursor `p`, accepting
inserts exactly `s` at `p` (document unchanged before `p` and after the
insertion), moves the cursor to `p + len(s)` and clears the suggestion;
dismissing keeps document and cursor and clears the suggestion. -/
theorem accept_dismiss_correct (st : EditorState) (s : String)
    (hs : st.suggestion = some s) (hc : st.cursor ≤ st.doc.length) :
    ((acceptSuggestion st).doc.toList.take st.cursor = st.doc.toList.take st.cursor)
    ∧ sliceString (acceptSuggestion st).doc st.cursor (st.cursor + s.length) = s
    ∧ ((acceptSuggestion st).doc.toList.drop (st.cursor + s.length) =
        st.doc.toList.drop st.cursor)
    ∧ (acceptSuggestion st).cursor = st.cursor + s.length
    ∧ (acceptSuggestion st).suggestion = none
    ∧ (clearSuggestionCmd st).doc = st.doc
    ∧ (clearSuggestionCmd st).cursor = st.cursor
    ∧ (clearSuggestionCmd st).suggestion = none := by
  have hA : (st.doc.toList.take st.cursor).length = st.cursor := by
    rw [List.length_take]
    have : st.doc.toList.length = st.doc.length := rfl
    omega
  have hB : s.toList.length = s.length := rfl
  have hdoc : (acceptSuggestion st).doc.toList =
      st.doc.toList.take st.cursor ++ (s.toList ++ st.doc.toList.drop st.cursor) := by
    simp [acceptSuggestion, hs, applyDispatch, stringInsert]
  refine ⟨?_, ?_, ?_, ?_, ?_, ?_, ?_, ?_⟩
  · rw [hdoc]
    exact List.take_left' hA
  · unfold sliceString
    rw [hdoc, List.drop_left' hA, Nat.add_sub_cancel_left,
      List.take_left' hB]
    rfl
  · rw [hdoc, ← List.append_assoc]
    refine List.drop_left' ?_
    rw [List.length_append, hA, hB]
  · simp [acceptSuggestion, hs, applyDispatch]
  · simp [acceptSuggestion, hs, applyDispatch, suggestionFieldUpdate, findSetSuggestion]
  · simp [clearSuggestionCmd, hs, applyDispatch]
  · simp [clearSuggestionCmd, hs, applyDispatch]
  · simp [clearSuggestionCmd, hs, applyDispatch, suggestionFieldUpdate, findSetSuggestion]

/-- Witness for the C3 theorem at a concrete editor state. -/
theorem accept_dismiss_correct_witness :
    sliceString
      (acceptSuggestion { doc := "The quick brown "
                          cursor := 16
                          selEmpty := true
                          suggestion := some "fox" }).doc
      16 (16 + String.length "fox") = "fox" :=
  (accept_dismiss_correct
    { doc := "The quick brown ", cursor := 16, selEmpty := true, suggestion := some "fox" }
    "fox" rfl (by decide)).2.1

/-- Claim C4, counterexample: the request body built by `sendRequest` has
`stream: false`, not `stream: true` as claimed. -/
theorem request_not_streaming_cex :
    (mkRequestBody DEFAULT_SETTINGS "The quick brown ").stream = false
    ∧ (mkRequestBody DEFAULT_SETTINGS "The quick brown ").stream ≠ true := by
  decide

/-- Claim C4 (amended): every completion request is non-streaming
(`stream:false`, `raw:true`, stop at newline); the response is parsed as a
single JSON body whose string `response` field, when present and
non-empty, is surfaced whole; a malformed or empty body yields nothing. -/
theorem request_non_streaming_whole_body (settings : AutocompleteSettings)
    (pfx r : String) :
    (mkRequestBody settings pfx).stream = false
    ∧ (mkRequestBody settings pfx).raw = true
    ∧ (mkRequestBody settings pfx).options.stop = ["\n"]
    ∧ responseSuggestion none = none
    ∧ responseSuggestion (some "") = none
    ∧ (r ≠ "" → responseSuggestion (some r) = some r) := by
  refine ⟨rfl, rfl, rfl, rfl, rfl, ?_⟩
  intro hr
  have : r.length ≠ 0 := by
    intro h0
    exact hr (String.ext (List.length_eq_zero.mp h0))
  simp [responseSuggestion, this]

/-- Witness for the C4 theorem on a concrete response body. -/
theorem request_non_streaming_whole_body_witness :
    responseSuggestion (some "fox") = some "fox" :=
  (request_non_streaming_whole_body DEFAULT_SETTINGS "p" "fox").2.2.2.2.2 (by decide)

/-- Claim C5, counterexample: the prompt sent is the raw prefix itself; it
is not wrapped in a synthetic front-matter block (it does not start with
`---`) and carries no injected `filename:` field. -/
theorem prompt_is_raw_prefix_cex :
    (mkRequestBody DEFAULT_SETTINGS "hello this is text").prompt = "hello this is text"
    ∧ ("---".toList.isPrefixOf "hello this is text".toList) = false
    ∧ ¬ ("filename".toList <:+: "hello this is text".toList) := by
  refine ⟨rfl, by decide, by decide⟩

/-- Claim C5 (amended): for every request the prompt sent to the
completion service is exactly the prefix text, with no front-matter
extraction or filename injection. -/
theorem prompt_is_raw_prefix (settings : AutocompleteSettings) (pfx : String) :
    (mkRequestBody settings pfx).prompt = pfx := rfl

/-- Claim C6: the eligibility classifier's listed conditions — ineligible
at position 0, after a space preceded by more whitespace, after a
character that is neither a word character nor a punctuation trigger, or
directly before a word character; eligible after a single space whose own
predecessor is non-whitespace (absent the front-matter/code exclusions),
with the two concrete scenarios from the specification. -/
theorem cursor_eligibility_conditions :
    (∀ settings doc sel, isCursorEligible settings doc 0 sel = false)
    ∧ (∀ settings doc pos sel, 2 ≤ pos → charAt? doc (pos - 1) = some ' ' →
        chOpt (charAt? doc (pos - 2)) isWhitespaceCh = true →
        isCursorEligible settings doc pos sel = false)
    ∧ (∀ settings doc pos sel c, charAt? doc (pos - 1) = some c → c ≠ ' ' →
        isWordChar c = false → isPunctuationTrigger c = false →
        isCursorEligible settings doc pos sel = false)
    ∧ (∀ settings doc pos sel, chOpt (charAt? doc pos) isWordChar = true →
        isCursorEligible settings doc pos sel = false)
    ∧ (∀ settings doc pos, 2 ≤ pos → charAt? doc (pos - 1) = some ' ' →
        chOpt (charAt? doc (pos - 2)) isWhitespaceCh = false →
        chOpt (charAt? doc pos) isWordChar = false →
        isInFrontmatter doc pos = false →
        (settings.disableInCodeBlocks &&
          (isInFencedCodeBlock doc pos || isInInlineCode doc pos)) = false →
        isCursorEligible settings doc pos true = true)
    ∧ isCursorEligible DEFAULT_SETTINGS "The quick brown " 16 true = true
    ∧ isCursorEligible DEFAULT_SETTINGS "The  " 5 true = false := by
  refine ⟨?_, ?_, ?_, ?_, ?_, by decide, by decide⟩
  · intro settings doc sel
    unfold isCursorEligible
    by_cases hsel : sel
    · simp [hsel]
    · simp [hsel]
  · intro settings doc pos sel h2 hprev hpp
    unfold isCursorEligible
    by_cases hsel : sel
    case neg => simp [hsel]
    have hpos : ¬ pos = 0 := by omega
    have hlt : ¬ pos < 2 := by omega
    simp [hsel, hpos, hprev, hlt, hpp]
  · intro settings doc pos sel c hprev hcsp hw hp
    unfold isCursorEligible
    by_cases hsel : sel
    case neg => simp [hsel]
    by_cases hpos : pos = 0
    · simp [hsel, hpos]
    · have hne : ¬ (charAt? doc (pos - 1) = some ' ') := by
        rw [hprev]
        intro h
        exact hcsp (Option.some.inj h)
      simp [hsel, hpos, hne, hprev, hw, hp, chOpt, hcsp]
  · intro settings doc pos sel hnext
    unfold isCursorEligible
    by_cases hsel : sel
    case neg => simp [hsel]
    by_cases hpos : pos = 0
    · simp [hsel, hpos]
    · simp only [hsel, hpos]
      split
      · rfl
      · simp [hnext]
  · intro settings doc pos h2 hprev hpp hnext hfm hcode
    unfold isCursorEligible
    have hpos : ¬ pos = 0 := by omega
    have hlt : ¬ pos < 2 := by omega
    simp [hpos, hprev, hlt, hpp, hnext, hfm, hcode]

/-- Witness for the C6 theorem at a concrete document and cursor. -/
theorem cursor_eligibility_conditions_witness :
    isCursorEligible DEFAULT_SETTINGS "The quick brown fox " 20 true = true :=
  cursor_eligibility_conditions.2.2.2.2.1 DEFAULT_SETTINGS "The quick brown fox " 20
    (by decide) (by decide) (by decide) (by decide) (by decide) (by decide)

/-- Claim C7: on delivery, exactly one normalization is applied — if the
character before the cursor is a space and the suggestion starts with a
space, one leading space is stripped before display; otherwise the text is
shown unmodified — including the `" jumped"` to `"jumped"` scenario. -/
theorem leading_space_normalization (st : EditorState) (text : String)
    (htext : text ≠ "") :
    (((if 0 < st.cursor then charAt? st.doc (st.cursor - 1) else none) = some ' ' ∧
        [' '].isPrefixOf text.toList = true) →
      String.mk (text.toList.drop 1) ≠ "" →
      (showSuggestion st text).suggestion = some (String.mk (text.toList.drop 1)))
    ∧ (¬ ((if 0 < st.cursor then charAt? st.doc (st.cursor - 1) else none) = some ' ' ∧
        [' '].isPrefixOf text.toList = true) →
      (showSuggestion st text).suggestion = some text)
    ∧ (showSuggestion { doc := "The quick brown fox "
                        cursor := 20
                        selEmpty := true
                        suggestion := none } " jumped").suggestion = some "jumped" := by
  refine ⟨?_, ?_, by decide⟩
  · intro hcond hne
    rcases hcond with ⟨hprev, hpre⟩
    unfold showSuggestion
    rw [if_neg htext]
    simp only [hprev, hpre]
    have hne2 : ¬ (String.mk text.data.tail = "") := by
      simpa [List.drop_one] using hne
    have hpre2 : [' '] <+: text.data := by
      simpa using hpre
    simp [normalizeSuggestion, hpre2, hne2, applyDispatch, suggestionFieldUpdate,
      findSetSuggestion, List.drop_one]
  · intro hcond
    unfold showSuggestion
    rw [if_neg htext]
    by_cases hprev : (if 0 < st.cursor then charAt? st.doc (st.cursor - 1) else none) = some ' '
    · have hpre : [' '].isPrefixOf text.toList = false := by
        rcases Bool.eq_false_or_eq_true ([' '].isPrefixOf text.toList) with h | h
        · exact absurd ⟨hprev, h⟩ hcond
        · exact h
      have hpre2 : ¬ ([' '] <+: text.data) := by
        intro hp
        have h1 : [' '].isPrefixOf text.toList = true := List.isPrefixOf_iff_prefix.mpr hp
        rw [hpre] at h1
        exact Bool.false_ne_true h1
      simp [normalizeSuggestion, hpre2, htext, applyDispatch, suggestionFieldUpdate,
        findSetSuggestion]
    · simp only [hprev]
      simp [normalizeSuggestion, hprev, htext, applyDispatch, suggestionFieldUpdate,
        findSetSuggestion]

/-- Witness for the C7 theorem at a concrete state and text. -/
theorem leading_space_normalization_witness :
    (showSuggestion { doc := "a ", cursor := 2, selEmpty := true, suggestion := none }
      " x").suggestion = some (String.mk (" x".toList.drop 1)) :=
  (leading_space_normalization
    { doc := "a ", cursor := 2, selEmpty := true, suggestion := none } " x"
    (by decide)).1 ⟨by decide, by decide⟩ (by decide)

/-- Claim C8: `maybeRequest` starts a request exactly when the editor has
focus, no request is in flight, the cursor is eligible and a prefix
window exists; on any failure the state is returned unchanged; every
prefix actually sent is at least 10 characters and not whitespace-only. -/
theorem request_gating (st : PluginState) :
    ((maybeRequest st).2.isSome =
      (st.hasFocus && !st.ctrl.inflight &&
        isCursorEligible st.settings st.editor.doc st.editor.cursor st.editor.selEmpty &&
        (getPrefixWindow st.settings st.editor.doc st.editor.cursor).isSome))
    ∧ ((maybeRequest st).2 = none → (maybeRequest st).1 = st)
    ∧ (∀ pfx, (maybeRequest st).2 = some pfx →
        getPrefixWindow st.settings st.editor.doc st.editor.cursor = some pfx
        ∧ 10 ≤ pfx.length ∧ jsTrim pfx ≠ "") := by
  unfold maybeRequest
  by_cases hf : st.hasFocus
  case neg => simp [hf]
  by_cases hi : st.ctrl.inflight
  case pos => simp [hf, hi]
  by_cases he : isCursorEligible st.settings st.editor.doc st.editor.cursor st.editor.selEmpty
  case neg => simp [hf, hi, he]
  simp only [hf, hi, he]
  cases hp : getPrefixWindow st.settings st.editor.doc st.editor.cursor with
  | none => simp [hp]
  | some pfx =>
    simp only [hp]
    refine ⟨by simp, by simp, ?_⟩
    intro q hq
    have hq2 : some pfx = some q := hq
    injection hq2 with hq3
    subst hq3
    refine ⟨rfl, ?_⟩
    unfold getPrefixWindow at hp
    by_cases h10 : (sliceString st.editor.doc
        (st.editor.cursor - clamp st.settings.contextChars 100 800) st.editor.cursor).length < 10
    · simp [h10] at hp
    by_cases htr : (jsTrim (sliceString st.editor.doc
        (st.editor.cursor - clamp st.settings.contextChars 100 800) st.editor.cursor)).length = 0
    · simp [h10, htr] at hp
    · simp only [h10, htr, if_false, if_neg, Option.some.injEq] at hp
      subst hp
      refine ⟨by omega, ?_⟩
      intro hempty
      rw [hempty] at htr
      exact htr rfl

/-- Witness for the C8 theorem at concrete plugin states. -/
theorem request_gating_witness :
    (maybeRequest { settings := DEFAULT_SETTINGS
                    hasFocus := false
                    ctrl := ctrlInit
                    editor := initialEditorState "hello world!" }).1 =
      { settings := DEFAULT_SETTINGS
        hasFocus := false
        ctrl := ctrlInit
        editor := initialEditorState "hello world!" }
    ∧ 10 ≤ ("The quick brown " : String).length :=
  ⟨(request_gating _).2.1 (by decide),
   ((request_gating { settings := DEFAULT_SETTINGS
                      hasFocus := true
                      ctrl := ctrlInit
                      editor := { doc := "The quick brown "
                                  cursor := 16
                                  selEmpty := true
                                  suggestion := none } }).2.2
      "The quick brown " (by decide)).2.1⟩

/-- Claim C9, counterexample: `isInFrontmatter` compares the trimmed first
line against `---`, so a document whose first line is `" ---"` (not
exactly the three-character string `---`) is still treated as front
matter. -/
theorem frontmatter_trim_cex :
    isInFrontmatter " ---\nx\n---\ny" 1 = true
    ∧ (docLines " ---\nx\n---\ny").head? = some " ---"
    ∧ " ---" ≠ "---" := by
  decide

/-- Claim C9 (amended): `isInFrontmatter` returns true only if the
document has at least two lines and its first line trims to `---`; it
scans forward for the first subsequent line trimming to `---`, and a
position is inside exactly when its line is at or before that closing
line; with no closing line every position is inside. Includes the
specification's `title:` scenario. -/
theorem frontmatter_characterization (doc : String) (pos : Nat) :
    ((docLines doc).length < 2 → isInFrontmatter doc pos = false)
    ∧ (∀ firstLine rest, docLines doc = firstLine :: rest →
        jsTrim firstLine ≠ "---" → isInFrontmatter doc pos = false)
    ∧ (∀ firstLine rest, docLines doc = firstLine :: rest →
        2 ≤ (docLines doc).length → jsTrim firstLine = "---" →
        ∀ n, findCloseLine (docLines doc) = some n →
          (isInFrontmatter doc pos = true ↔ lineNumberAt doc pos ≤ n))
    ∧ (∀ firstLine rest, docLines doc = firstLine :: rest →
        2 ≤ (docLines doc).length → jsTrim firstLine = "---" →
        findCloseLine (docLines doc) = none →
        isInFrontmatter doc pos = true)
    ∧ isInFrontmatter "---\ntitle: X\n---\nHello" 6 = true := by
  refine ⟨?_, ?_, ?_, ?_, by decide⟩
  · intro h
    simp [isInFrontmatter, if_pos h]
  · intro firstLine rest hls hne
    by_cases h2 : (docLines doc).length < 2
    · simp [isInFrontmatter, if_pos h2]
    · simp only [isInFrontmatter, if_neg h2]
      rw [hls]
      simp [hne]
  · intro firstLine rest hls hlen htrim n hclose
    have h2 : ¬ (docLines doc).length < 2 := by omega
    simp only [isInFrontmatter, if_neg h2]
    rw [hls]
    simp [htrim, hls ▸ hclose]
  · intro firstLine rest hls hlen htrim hclose
    have h2 : ¬ (docLines doc).length < 2 := by omega
    simp only [isInFrontmatter, if_neg h2]
    rw [hls]
    simp [htrim, hls ▸ hclose]

/-- Witness for the C9 theorem on the scenario document. -/
theorem frontmatter_characterization_witness :
    (isInFrontmatter "---\ntitle: X\n---\nHello" 6 = true ↔
      lineNumberAt "---\ntitle: X\n---\nHello" 6 ≤ 3) :=
  (frontmatter_characterization "---\ntitle: X\n---\nHello" 6).2.2.1
    "---" ["title: X", "---", "Hello"] (by decide) (by decide) (by decide) 3 (by decide)

/-- Helper: one editor step never stores an empty suggestion. -/
theorem editorStep_preserves_suggestionOk (st : EditorState) (e : EditorEvent)
    (h : suggestionOk st) : suggestionOk (editorStep st e) := by
  cases e with
  | deliver t =>
    intro s hsome
    by_cases ht : t = ""
    · simp only [editorStep, showSuggestion] at hsome
      rw [if_pos ht] at hsome
      exact h s hsome
    · simp only [editorStep, showSuggestion] at hsome
      rw [if_neg ht] at hsome
      by_cases h2 : normalizeSuggestion
          (if 0 < st.cursor then charAt? st.doc (st.cursor - 1) else none) t = ""
      · rw [if_pos h2] at hsome
        exact h s hsome
      · rw [if_neg h2] at hsome
        simp only [applyDispatch, suggestionFieldUpdate, findSetSuggestion] at hsome
        rw [← Option.some.inj hsome]
        exact h2
  | accept =>
    intro s hsome
    cases hsug : st.suggestion with
    | none =>
      simp only [editorStep, acceptSuggestion, hsug] at hsome
      simp at hsome
    | some v =>
      simp [editorStep, acceptSuggestion, hsug, applyDispatch, suggestionFieldUpdate,
        findSetSuggestion] at hsome
  | dismiss =>
    intro s hsome
    cases hsug : st.suggestion with
    | none =>
      simp only [editorStep, clearSuggestionCmd, hsug] at hsome
      simp at hsome
    | some v =>
      simp [editorStep, clearSuggestionCmd, hsug, applyDispatch, suggestionFieldUpdate,
        findSetSuggestion] at hsome
  | edit p t =>
    intro s hsome
    simp [editorStep, applyDispatch, suggestionFieldUpdate, findSetSuggestion] at hsome
  | move a =>
    intro s hsome
    simp [editorStep, applyDispatch, suggestionFieldUpdate, findSetSuggestion] at hsome

/-- Helper: folding editor steps preserves the non-empty invariant. -/
theorem foldl_preserves_suggestionOk (evs : List EditorEvent) (st : EditorState)
    (h : suggestionOk st) : suggestionOk (evs.foldl editorStep st) := by
  induction evs generalizing st with
  | nil => exact h
  | cons e es ih => exact ih _ (editorStep_preserves_suggestionOk st e h)

/-- Claim C10: in every reachable editor state the suggestion field is
`none` or a non-empty string — an empty delivery (also one emptied by the
leading-space normalization) is never shown. -/
theorem suggestion_nonempty_invariant (doc : String) (evs : List EditorEvent)
    (s : String) (h : (runEditor doc evs).suggestion = some s) : s ≠ "" := by
  have hinit : suggestionOk (initialEditorState doc) := by
    intro t ht
    simp [initialEditorState] at ht
  exact foldl_preserves_suggestionOk evs (initialEditorState doc) hinit s h

/-- Witness for the C10 theorem on a concrete trace. -/
theorem suggestion_nonempty_invariant_witness :
    (runEditor "The quick brown " [EditorEvent.deliver "fox"]).suggestion = some "fox"
    ∧ "fox" ≠ "" :=
  ⟨by decide, suggestion_nonempty_invariant "The quick brown " [EditorEvent.deliver "fox"]
    "fox" (by decide)⟩

end SmartCompose
